import Mathlib

/-!
Verification development for the RISC Zero benchmark analysis tool
(`analyze_benchmarks.py`), a single-file reporting script.  The script is
embedded shallowly: Python float division over integer-valued benchmark
fields is modelled by `Rat`, and every unguarded Python division (which
raises `ZeroDivisionError` when the denominator is zero) or logarithm of a
non-positive argument (which raises `ValueError`) is modelled in the
`Except Unit` monad, written out as explicit matches.  The file system is
abstracted to the data the loader can observe: the parsed contents of
`benchmark_summary.json` when that file is present, and the named per-run
JSON files of the directory.  Console output is abstracted to the
structured values the script computes and prints; the exact formatted text
is not modelled, but every printed number is.
-/

/-- One benchmark measurement record, with the fields read by the script
(`participant_count`, `user_cycles`, `total_cycles`, `session_segments`,
`proving_time_ms`, `total_time_ms`, `receipt_size_bytes`,
`journal_size_bytes`, `timestamp`).  All numeric fields are non-negative
integers in the input JSON, hence `Nat`. -/
structure BenchmarkRecord where
  participant_count : Nat
  user_cycles : Nat
  total_cycles : Nat
  session_segments : Nat
  proving_time_ms : Nat
  total_time_ms : Nat
  receipt_size_bytes : Nat
  journal_size_bytes : Nat
  timestamp : String
deriving Repr, DecidableEq

/-- Python division `a / b`: raises `ZeroDivisionError` when `b == 0`,
otherwise produces the quotient (floats modelled by `Rat`). -/
def pyDiv (a b : Rat) : Except Unit Rat :=
  if b = 0 then .error () else .ok (a / b)

/-- A results directory as observed by the loader: the parsed contents of
`benchmark_summary.json` when that file exists (`none` when absent), and
the directory's other JSON files, each given by its file name and the one
record it parses to. -/
structure ResultsDir where
  summary : Option (List BenchmarkRecord)
  files : List (String × BenchmarkRecord)

/-- Whether a file name matches the glob `benchmark_N*.json` used by the
fallback scan (line 31).  Equivalent to: the name starts with
`benchmark_N` and ends with `.json` (with the two parts not overlapping);
spelled over the character list so that it is kernel-computable. -/
def matches_run_pattern (name : String) : Bool :=
  decide (name.data.take 11 = "benchmark_N".data) &&
  decide (16 ≤ name.data.length) &&
  decide (name.data.drop (name.data.length - 5) = ".json".data)

/-- File-name order on per-run files, modelling the sort of the glob
results (`sorted(Path(results_dir).glob(...))`, line 31). -/
def fileLE (a b : String × BenchmarkRecord) : Prop := a.1 ≤ b.1

instance : DecidableRel fileLE :=
  fun a b => inferInstanceAs (Decidable (a.1 ≤ b.1))

instance : IsTotal (String × BenchmarkRecord) fileLE :=
  ⟨fun a b => le_total a.1 b.1⟩

instance : IsTrans (String × BenchmarkRecord) fileLE :=
  ⟨fun _ _ _ h h' => le_trans h h'⟩

/-- Sort per-run files by file name (line 31). -/
def sortFilesByName (l : List (String × BenchmarkRecord)) :
    List (String × BenchmarkRecord) :=
  List.insertionSort fileLE l

/-- Loader `load_benchmark_data` (lines 21-35): if `benchmark_summary.json`
exists return its parsed contents; otherwise parse the files matching
`benchmark_N*.json` in file-name-sorted order. -/
def load_benchmark_data (dir : ResultsDir) : List BenchmarkRecord :=
  match dir.summary with
  | some records => records
  | none =>
    (sortFilesByName (dir.files.filter (fun p => matches_run_pattern p.1))).map
      Prod.snd

/-- Order on records by `participant_count`, the sort key used by
`sorted(data, key=lambda x: x['participant_count'])` (lines 58, 133, 165). -/
def recLE (a b : BenchmarkRecord) : Prop :=
  a.participant_count ≤ b.participant_count

instance : DecidableRel recLE :=
  fun a b => inferInstanceAs (Decidable (a.participant_count ≤ b.participant_count))

instance : IsTotal BenchmarkRecord recLE :=
  ⟨fun a b => Nat.le_total a.participant_count b.participant_count⟩

instance : IsTrans BenchmarkRecord recLE :=
  ⟨fun _ _ _ h h' => Nat.le_trans h h'⟩

/-- Sort records ascending by `participant_count` (lines 58, 133, 165). -/
def sortByParticipants (data : List BenchmarkRecord) : List BenchmarkRecord :=
  List.insertionSort recLE data

/-- Python `min(data, key=lambda x: x['participant_count'])` on the
non-empty list `x :: xs`: the first record attaining the minimal key
(line 78). -/
def minimumBy (x : BenchmarkRecord) (xs : List BenchmarkRecord) : BenchmarkRecord :=
  xs.foldl (fun b a => if a.participant_count < b.participant_count then a else b) x

/-- Python `max(data, key=lambda x: x['participant_count'])` on the
non-empty list `x :: xs`: the first record attaining the maximal key
(line 79). -/
def maximumBy (x : BenchmarkRecord) (xs : List BenchmarkRecord) : BenchmarkRecord :=
  xs.foldl (fun b a => if b.participant_count < a.participant_count then a else b) x

/-- Python `min` over a non-empty sequence of naturals (line 49): keep the
current value unless the next item is strictly smaller. -/
def pyMinNat (x : Nat) (xs : List Nat) : Nat :=
  xs.foldl (fun b a => if a < b then a else b) x

/-- Python `max` over a non-empty sequence of naturals (line 49): keep the
current value unless the next item is strictly greater. -/
def pyMaxNat (x : Nat) (xs : List Nat) : Nat :=
  xs.foldl (fun b a => if b < a then a else b) x

/-- The five scaling ratios printed by the scaling-analysis section
(lines 81-91). -/
structure ScalingStats where
  n_ratio : Rat
  user_cycle_ratio : Rat
  total_cycle_ratio : Rat
  segment_ratio : Rat
  time_ratio : Rat
deriving Repr, DecidableEq

/-- Scaling ratios of the max-participant record `lst` against the
min-participant record `fst` (lines 81-85), each an unguarded Python
division evaluated in source order. -/
def scalingStats (fst lst : BenchmarkRecord) : Except Unit ScalingStats :=
  match pyDiv (lst.participant_count : Rat) (fst.participant_count : Rat) with
  | .error u => .error u
  | .ok n_ratio =>
    match pyDiv (lst.user_cycles : Rat) (fst.user_cycles : Rat) with
    | .error u => .error u
    | .ok user_cycle_ratio =>
      match pyDiv (lst.total_cycles : Rat) (fst.total_cycles : Rat) with
      | .error u => .error u
      | .ok total_cycle_ratio =>
        match pyDiv (lst.session_segments : Rat) (fst.session_segments : Rat) with
        | .error u => .error u
        | .ok segment_ratio =>
          match pyDiv (lst.total_time_ms : Rat) (fst.total_time_ms : Rat) with
          | .error u => .error u
          | .ok time_ratio =>
            .ok ⟨n_ratio, user_cycle_ratio, total_cycle_ratio, segment_ratio,
                 time_ratio⟩

/-- The inputs of the three power-law exponents of the complexity section:
each displayed exponent is `log r / log n_ratio` for the corresponding
ratio `r` (lines 97-99; the real-valued logarithms themselves are not
needed by any claim, so the section is represented by its inputs). -/
structure ComplexityStats where
  user_cycle_ratio : Rat
  total_cycle_ratio : Rat
  time_ratio : Rat
  n_ratio : Rat
deriving Repr, DecidableEq

/-- Complexity section (lines 96-105): computed and printed only when
`n_ratio > 1`; inside the section, `math.log` raises `ValueError` on a
non-positive argument, modelled as an error when any metric ratio is not
positive. -/
def complexityStats (s : ScalingStats) : Except Unit (Option ComplexityStats) :=
  if 1 < s.n_ratio then
    if s.user_cycle_ratio ≤ 0 ∨ s.total_cycle_ratio ≤ 0 ∨ s.time_ratio ≤ 0 then
      .error ()
    else
      .ok (some ⟨s.user_cycle_ratio, s.total_cycle_ratio, s.time_ratio, s.n_ratio⟩)
  else .ok none

/-- Per-record term of the average-user-cycles-per-participant sum
(line 110). -/
def userPerParticipantTerm (d : BenchmarkRecord) : Except Unit Rat :=
  pyDiv (d.user_cycles : Rat) (d.participant_count : Rat)

/-- Per-record term of the average-total-cycles-per-participant sum
(line 111). -/
def totalPerParticipantTerm (d : BenchmarkRecord) : Except Unit Rat :=
  pyDiv (d.total_cycles : Rat) (d.participant_count : Rat)

/-- Per-record term of the average-time-per-participant sum (line 112). -/
def timePerParticipantTerm (d : BenchmarkRecord) : Except Unit Rat :=
  pyDiv (d.total_time_ms : Rat) (d.participant_count : Rat)

/-- Per-record term of the average-overhead sum (line 115):
`(total_cycles - user_cycles) / user_cycles * 100`, with the division
unguarded. -/
def overheadTerm (d : BenchmarkRecord) : Except Unit Rat :=
  match pyDiv ((d.total_cycles : Rat) - (d.user_cycles : Rat)) (d.user_cycles : Rat) with
  | .error u => .error u
  | .ok q => .ok (q * 100)

/-- Python `sum(f(d) for d in data)` where each term may raise; terms are
evaluated left to right. -/
def sumExcept (f : BenchmarkRecord → Except Unit Rat) :
    List BenchmarkRecord → Except Unit Rat
  | [] => .ok 0
  | d :: ds =>
    match f d with
    | .error u => .error u
    | .ok q =>
      match sumExcept f ds with
      | .error u => .error u
      | .ok rest => .ok (q + rest)

/-- The four efficiency metrics printed by lines 117-120. -/
structure EfficiencyStats where
  avg_user_cycles_per_participant : Rat
  avg_total_cycles_per_participant : Rat
  avg_time_per_participant : Rat
  avg_overhead : Rat
deriving Repr, DecidableEq

/-- Efficiency metrics (lines 110-115): per-participant averages of user
cycles, total cycles and total time, and the average percentage overhead,
in source evaluation order.  All divisions are unguarded Python
divisions. -/
def efficiencyStats (data : List BenchmarkRecord) : Except Unit EfficiencyStats :=
  match sumExcept userPerParticipantTerm data with
  | .error u => .error u
  | .ok su =>
    match pyDiv su (data.length : Rat) with
    | .error u => .error u
    | .ok avg_user =>
      match sumExcept totalPerParticipantTerm data with
      | .error u => .error u
      | .ok st =>
        match pyDiv st (data.length : Rat) with
        | .error u => .error u
        | .ok avg_total =>
          match sumExcept timePerParticipantTerm data with
          | .error u => .error u
          | .ok stm =>
            match pyDiv stm (data.length : Rat) with
            | .error u => .error u
            | .ok avg_time =>
              match sumExcept overheadTerm data with
              | .error u => .error u
              | .ok so =>
                match pyDiv so (data.length : Rat) with
                | .error u => .error u
                | .ok avg_overhead =>
                  .ok ⟨avg_user, avg_total, avg_time, avg_overhead⟩

/-- Everything the Reporter prints for a non-empty data set: run count,
participant range, the detailed table's row order, the scaling ratios, the
optional complexity section and the efficiency metrics. -/
structure Report where
  total_runs : Nat
  participant_min : Nat
  participant_max : Nat
  table : List BenchmarkRecord
  scaling : ScalingStats
  complexity : Option ComplexityStats
  efficiency : EfficiencyStats
deriving Repr, DecidableEq

/-- Reporter `print_statistics` (lines 37-121).  On an empty list it prints
`No data to analyze` and returns (`.ok none`).  Otherwise it prints the
report; any unguarded division by zero or logarithm of a non-positive
number raises, modelled as `.error ()` (in which case the process dies with
an uncaught exception and no complete report is printed). -/
def print_statistics (data : List BenchmarkRecord) : Except Unit (Option Report) :=
  match data with
  | [] => .ok none
  | x :: xs =>
    match scalingStats (minimumBy x xs) (maximumBy x xs) with
    | .error u => .error u
    | .ok s =>
      match complexityStats s with
      | .error u => .error u
      | .ok c =>
        match efficiencyStats (x :: xs) with
        | .error u => .error u
        | .ok eff =>
          .ok (some
            { total_runs := (x :: xs).length
              participant_min := pyMinNat x.participant_count (xs.map (·.participant_count))
              participant_max := pyMaxNat x.participant_count (xs.map (·.participant_count))
              table := sortByParticipants (x :: xs)
              scaling := s
              complexity := c
              efficiency := eff })

/-- The 13 column names of the CSV header row (lines 127-131). -/
def csvHeader : List String :=
  ["N", "User Cycles", "Total Cycles", "Segments", "Proving Time (ms)",
   "Total Time (ms)", "Receipt Size (bytes)", "Journal Size (bytes)",
   "User Cycles/Participant", "Total Cycles/Participant", "Overhead %",
   "Time/Participant (ms)", "Timestamp"]

/-- Overhead percentage of one CSV row (line 134): guarded, `0` when
`user_cycles` is not positive. -/
def csv_overhead (d : BenchmarkRecord) : Rat :=
  if 0 < d.user_cycles then
    ((d.total_cycles : Rat) - (d.user_cycles : Rat)) / (d.user_cycles : Rat) * 100
  else 0

/-- One data row of the CSV report: the eight raw fields, the four derived
columns and the timestamp (lines 135-149). -/
structure CsvRow where
  n : Nat
  user_cycles : Nat
  total_cycles : Nat
  session_segments : Nat
  proving_time_ms : Nat
  total_time_ms : Nat
  receipt_size_bytes : Nat
  journal_size_bytes : Nat
  user_cycles_per_participant : Rat
  total_cycles_per_participant : Rat
  overhead : Rat
  time_per_participant : Rat
  timestamp : String
deriving Repr, DecidableEq

/-- The CSV data row written for one record (lines 134-149); the three
per-participant columns are unguarded Python divisions. -/
def csvRow (d : BenchmarkRecord) : Except Unit CsvRow :=
  match pyDiv (d.user_cycles : Rat) (d.participant_count : Rat) with
  | .error u => .error u
  | .ok ucp =>
    match pyDiv (d.total_cycles : Rat) (d.participant_count : Rat) with
    | .error u => .error u
    | .ok tcp =>
      match pyDiv (d.total_time_ms : Rat) (d.participant_count : Rat) with
      | .error u => .error u
      | .ok tpp =>
        .ok { n := d.participant_count
              user_cycles := d.user_cycles
              total_cycles := d.total_cycles
              session_segments := d.session_segments
              proving_time_ms := d.proving_time_ms
              total_time_ms := d.total_time_ms
              receipt_size_bytes := d.receipt_size_bytes
              journal_size_bytes := d.journal_size_bytes
              user_cycles_per_participant := ucp
              total_cycles_per_participant := tcp
              overhead := csv_overhead d
              time_per_participant := tpp
              timestamp := d.timestamp }

/-- The CSV data rows for a list of records, in list order. -/
def csvRows : List BenchmarkRecord → Except Unit (List CsvRow)
  | [] => .ok []
  | d :: ds =>
    match csvRow d with
    | .error u => .error u
    | .ok r =>
      match csvRows ds with
      | .error u => .error u
      | .ok rs => .ok (r :: rs)

/-- One line of the written CSV file: the header row or a data row. -/
inductive CsvLine where
  | header (cols : List String)
  | row (r : CsvRow)
deriving Repr, DecidableEq

/-- CSV Exporter `generate_csv_report` (lines 123-151): one header row,
then one data row per record sorted ascending by `participant_count`. -/
def generate_csv_report (data : List BenchmarkRecord) : Except Unit (List CsvLine) :=
  match csvRows (sortByParticipants data) with
  | .error u => .error u
  | .ok rows => .ok (CsvLine.header csvHeader :: rows.map CsvLine.row)

/-- The data rows of a written CSV file, header lines dropped. -/
def csvDataRows (lines : List CsvLine) : List CsvRow :=
  lines.filterMap (fun l => match l with
    | CsvLine.header _ => none
    | CsvLine.row r => some r)

/-- The series plotted in the four panels of `benchmark_plots.png`
(lines 164-208): participants, user cycles, total cycles, segments, total
time in seconds, and guarded overhead percentages, each over the records
sorted ascending by `participant_count`. -/
structure PlotData where
  participants : List Nat
  user_cycles : List Nat
  total_cycles : List Nat
  segments : List Nat
  times_seconds : List Rat
  overhead_percentages : List Rat
deriving Repr, DecidableEq

/-- Overhead percentage of one plotted point (line 202): guarded, `0` when
`user_cycles` is not positive. -/
def plot_overhead (u t : Nat) : Rat :=
  if 0 < u then ((t : Rat) - (u : Rat)) / (u : Rat) * 100 else 0

/-- Chart Renderer `generate_plot` (lines 153-214): when matplotlib cannot
be imported it prints the informational note and returns without writing a
file (`none`); otherwise it writes the 4-panel figure with the plotted
series. -/
def generate_plot (matplotlib_available : Bool) (data : List BenchmarkRecord) :
    Option PlotData :=
  if matplotlib_available then
    let sd := sortByParticipants data
    some { participants := sd.map (·.participant_count)
           user_cycles := sd.map (·.user_cycles)
           total_cycles := sd.map (·.total_cycles)
           segments := sd.map (·.session_segments)
           times_seconds := sd.map (fun d => (d.total_time_ms : Rat) / 1000)
           overhead_percentages :=
             sd.map (fun d => plot_overhead d.user_cycles d.total_cycles) }
  else none

/-- The environment a run of the script observes: whether the results
directory exists, its contents, and whether matplotlib is importable. -/
structure World where
  dirExists : Bool
  dir : ResultsDir
  matplotlib_available : Bool

/-- How a run of the process ends: usage error (missing directory), the
no-data error, death by an uncaught exception, or completion with the
printed report, the written CSV lines and the optionally written plot. -/
inductive Outcome where
  | dirNotFound
  | noData
  | crashed
  | completed (rep : Option Report) (csv : List CsvLine) (plot : Option PlotData)
deriving Repr, DecidableEq

/-- Driver `main` of the script (lines 216-250), as `run_main`: directory existence check, load,
empty-data check, then report, CSV and plot in order.  An error raised by
the report or CSV stage kills the process (`crashed`). -/
def run_main (w : World) : Outcome :=
  if w.dirExists then
    let data := load_benchmark_data w.dir
    if data.isEmpty then .noData
    else
      match print_statistics data with
      | .error _ => .crashed
      | .ok rep =>
        match generate_csv_report data with
        | .error _ => .crashed
        | .ok csv => .completed rep csv (generate_plot w.matplotlib_available data)
  else .dirNotFound

/-- Process exit code of an outcome: `sys.exit(1)` on the two explicit
error paths (lines 226, 234), exit code 1 for an uncaught Python
exception, 0 on fall-through. -/
def exit_code : Outcome → Nat
  | .completed _ _ _ => 0
  | _ => 1

/-- The error text printed on each failing path (lines 224-225, 233; the
directory path and script name interpolated into the messages are elided;
an uncaught exception prints an interpreter traceback instead). -/
def error_output : Outcome → List String
  | .dirNotFound => ["Error: Results directory not found",
                     "Usage: analyze_benchmarks.py [results_dir]"]
  | .noData => ["Error: No benchmark data found"]
  | .crashed => ["Traceback"]
  | .completed _ _ _ => []

/-- The N=1 record of end-to-end scenario 1 of the spec. -/
def ex1 : BenchmarkRecord :=
  { participant_count := 1, user_cycles := 1000, total_cycles := 1024
    session_segments := 1, proving_time_ms := 500, total_time_ms := 600
    receipt_size_bytes := 2048, journal_size_bytes := 512, timestamp := "t1" }

/-- The N=10 record of end-to-end scenario 1 of the spec. -/
def ex10 : BenchmarkRecord :=
  { participant_count := 10, user_cycles := 9500, total_cycles := 16384
    session_segments := 4, proving_time_ms := 4500, total_time_ms := 5000
    receipt_size_bytes := 2048, journal_size_bytes := 4096, timestamp := "t2" }

/-- The summary contents of end-to-end scenario 1 of the spec. -/
def exData : List BenchmarkRecord := [ex1, ex10]

/-- A well-behaved record (all denominators positive) used as a concrete
input by several witnesses. -/
def rGood : BenchmarkRecord :=
  { participant_count := 2, user_cycles := 100, total_cycles := 200
    session_segments := 1, proving_time_ms := 1, total_time_ms := 10
    receipt_size_bytes := 0, journal_size_bytes := 0, timestamp := "t" }

/-- The report printed for the single record `rGood`: one run, range 2 to 2,
all scaling ratios 1, no complexity section, and the per-participant and
overhead averages of `rGood`. -/
def repGood : Report :=
  { total_runs := 1, participant_min := 2, participant_max := 2
    table := [rGood]
    scaling := { n_ratio := 1, user_cycle_ratio := 1, total_cycle_ratio := 1
                 segment_ratio := 1, time_ratio := 1 }
    complexity := none
    efficiency := { avg_user_cycles_per_participant := 50
                    avg_total_cycles_per_participant := 100
                    avg_time_per_participant := 5
                    avg_overhead := 100 } }

/-- The CSV data row written for `rGood`. -/
def rowGood : CsvRow :=
  { n := 2, user_cycles := 100, total_cycles := 200, session_segments := 1
    proving_time_ms := 1, total_time_ms := 10, receipt_size_bytes := 0
    journal_size_bytes := 0, user_cycles_per_participant := 50
    total_cycles_per_participant := 100, overhead := 100
    time_per_participant := 5, timestamp := "t" }

/-- A world whose directory exists and holds a summary file with the single
record `rGood`, with matplotlib unavailable. -/
def goodWorld : World :=
  { dirExists := true
    dir := { summary := some [rGood], files := [] }
    matplotlib_available := false }

/-- A record with `user_cycles = 0` (and `total_cycles = 0`): the Reporter
raises `ZeroDivisionError` on it while the CSV overhead guard returns 0. -/
def crashRec : BenchmarkRecord :=
  { participant_count := 1, user_cycles := 0, total_cycles := 0
    session_segments := 1, proving_time_ms := 1, total_time_ms := 1
    receipt_size_bytes := 0, journal_size_bytes := 0, timestamp := "t0" }

/-- A world whose directory exists and whose summary file holds the single
record `crashRec`. -/
def crashWorld : World :=
  { dirExists := true
    dir := { summary := some [crashRec], files := [] }
    matplotlib_available := false }

/-- A record whose `session_segments` is zero while every other denominator
field is positive. -/
def zeroSegRec : BenchmarkRecord :=
  { participant_count := 1, user_cycles := 5, total_cycles := 5
    session_segments := 0, proving_time_ms := 1, total_time_ms := 7
    receipt_size_bytes := 0, journal_size_bytes := 0, timestamp := "z" }

/-- A directory holding a summary file that parses to the empty JSON array
next to a matching per-run file. -/
def emptySummaryDir : ResultsDir :=
  { summary := some []
    files := [("benchmark_N1.json", rGood)] }

/-- A world whose directory is `emptySummaryDir`. -/
def emptySummaryWorld : World :=
  { dirExists := true, dir := emptySummaryDir, matplotlib_available := true }

/-- The report printed for scenario 1 (`exData`): 2 runs, range 1 to 10,
participant ratio 10, user-cycle ratio 19/2 = 9.50, complexity section
present, and exact rational efficiency averages. -/
def exReport7 : Report :=
  { total_runs := 2, participant_min := 1, participant_max := 10
    table := [ex1, ex10]
    scaling := { n_ratio := 10, user_cycle_ratio := 19/2, total_cycle_ratio := 16
                 segment_ratio := 4, time_ratio := 25/3 }
    complexity := some { user_cycle_ratio := 19/2, total_cycle_ratio := 16
                         time_ratio := 25/3, n_ratio := 10 }
    efficiency := { avg_user_cycles_per_participant := 975
                    avg_total_cycles_per_participant := 6656/5
                    avg_time_per_participant := 550
                    avg_overhead := 3556/95 } }

/-- The CSV data row written for `ex1`: overhead 12/5 = 2.4 percent. -/
def exRow1 : CsvRow :=
  { n := 1, user_cycles := 1000, total_cycles := 1024, session_segments := 1
    proving_time_ms := 500, total_time_ms := 600, receipt_size_bytes := 2048
    journal_size_bytes := 512, user_cycles_per_participant := 1000
    total_cycles_per_participant := 1024, overhead := 12/5
    time_per_participant := 600, timestamp := "t1" }

/-- The CSV data row written for `ex10`: overhead 6884/95, which is 72.46
percent to two decimal places. -/
def exRow10 : CsvRow :=
  { n := 10, user_cycles := 9500, total_cycles := 16384, session_segments := 4
    proving_time_ms := 4500, total_time_ms := 5000, receipt_size_bytes := 2048
    journal_size_bytes := 4096, user_cycles_per_participant := 950
    total_cycles_per_participant := 8192/5, overhead := 6884/95
    time_per_participant := 500, timestamp := "t2" }

/-- Characterization of a successful Python division. -/
theorem pyDiv_ok_iff (a b q : Rat) : pyDiv a b = .ok q ↔ b ≠ 0 ∧ q = a / b := by
  unfold pyDiv
  by_cases hb : b = 0 <;> simp [hb, eq_comm]

/-- Python division by zero raises. -/
theorem pyDiv_error (a b : Rat) (h : b = 0) : pyDiv a b = .error () := by
  simp [pyDiv, h]

/-- Sorting per-run files by name yields a list sorted by file name. -/
theorem sortFilesByName_sorted (l : List (String × BenchmarkRecord)) :
    (sortFilesByName l).Pairwise fileLE :=
  List.sorted_insertionSort fileLE l

/-- Sorting records by participant count yields a list sorted by that key. -/
theorem sortByParticipants_sorted (data : List BenchmarkRecord) :
    (sortByParticipants data).Pairwise recLE :=
  List.sorted_insertionSort recLE data

/-- Sorting records by participant count is a permutation of the input. -/
theorem sortByParticipants_perm (data : List BenchmarkRecord) :
    (sortByParticipants data).Perm data :=
  List.perm_insertionSort recLE data

/-- The key of the min-participant record is the minimum of the keys. -/
theorem minimumBy_key (x : BenchmarkRecord) (xs : List BenchmarkRecord) :
    (minimumBy x xs).participant_count =
      pyMinNat x.participant_count (xs.map (·.participant_count)) := by
  induction xs generalizing x with
  | nil => rfl
  | cons a as ih =>
    rw [show minimumBy x (a :: as) =
          minimumBy (if a.participant_count < x.participant_count then a else x) as
        from rfl, ih]
    have hk : (if a.participant_count < x.participant_count then a
               else x).participant_count =
        if a.participant_count < x.participant_count then a.participant_count
        else x.participant_count := by
      by_cases hc : a.participant_count < x.participant_count
      · rw [if_pos hc, if_pos hc]
      · rw [if_neg hc, if_neg hc]
    rw [hk]
    rfl

/-- The key of the max-participant record is the maximum of the keys. -/
theorem maximumBy_key (x : BenchmarkRecord) (xs : List BenchmarkRecord) :
    (maximumBy x xs).participant_count =
      pyMaxNat x.participant_count (xs.map (·.participant_count)) := by
  induction xs generalizing x with
  | nil => rfl
  | cons a as ih =>
    rw [show maximumBy x (a :: as) =
          maximumBy (if x.participant_count < a.participant_count then a else x) as
        from rfl, ih]
    have hk : (if x.participant_count < a.participant_count then a
               else x).participant_count =
        if x.participant_count < a.participant_count then a.participant_count
        else x.participant_count := by
      by_cases hc : x.participant_count < a.participant_count
      · rw [if_pos hc, if_pos hc]
      · rw [if_neg hc, if_neg hc]
    rw [hk]
    rfl

/-- Inversion of a successful scaling computation: every denominator field
of the min-participant record is non-zero and the participant ratio is the
quotient of the two participant counts. -/
theorem scalingStats_ok_inv {fst lst : BenchmarkRecord} {s : ScalingStats}
    (h : scalingStats fst lst = .ok s) :
    fst.participant_count ≠ 0 ∧ fst.user_cycles ≠ 0 ∧ fst.total_cycles ≠ 0 ∧
    fst.session_segments ≠ 0 ∧ fst.total_time_ms ≠ 0 ∧
    s.n_ratio = (lst.participant_count : Rat) / (fst.participant_count : Rat) := by
  unfold scalingStats at h
  cases h1 : pyDiv (lst.participant_count : Rat) (fst.participant_count : Rat) with
  | error u => simp [h1] at h
  | ok q1 =>
  simp only [h1] at h
  cases h2 : pyDiv (lst.user_cycles : Rat) (fst.user_cycles : Rat) with
  | error u => simp [h2] at h
  | ok q2 =>
  simp only [h2] at h
  cases h3 : pyDiv (lst.total_cycles : Rat) (fst.total_cycles : Rat) with
  | error u => simp [h3] at h
  | ok q3 =>
  simp only [h3] at h
  cases h4 : pyDiv (lst.session_segments : Rat) (fst.session_segments : Rat) with
  | error u => simp [h4] at h
  | ok q4 =>
  simp only [h4] at h
  cases h5 : pyDiv (lst.total_time_ms : Rat) (fst.total_time_ms : Rat) with
  | error u => simp [h5] at h
  | ok q5 =>
  simp only [h5] at h
  obtain ⟨hb1, hq1⟩ := (pyDiv_ok_iff _ _ _).mp h1
  obtain ⟨hb2, _⟩ := (pyDiv_ok_iff _ _ _).mp h2
  obtain ⟨hb3, _⟩ := (pyDiv_ok_iff _ _ _).mp h3
  obtain ⟨hb4, _⟩ := (pyDiv_ok_iff _ _ _).mp h4
  obtain ⟨hb5, _⟩ := (pyDiv_ok_iff _ _ _).mp h5
  cases h
  exact ⟨Nat.cast_ne_zero.mp hb1, Nat.cast_ne_zero.mp hb2, Nat.cast_ne_zero.mp hb3,
    Nat.cast_ne_zero.mp hb4, Nat.cast_ne_zero.mp hb5, hq1⟩

/-- Inversion of a successful complexity-section computation: the section is
present, made of the scaling ratios, exactly when the participant ratio
exceeds 1. -/
theorem complexityStats_ok_inv {s : ScalingStats} {c : Option ComplexityStats}
    (h : complexityStats s = .ok c) :
    (1 < s.n_ratio ∧
      c = some ⟨s.user_cycle_ratio, s.total_cycle_ratio, s.time_ratio, s.n_ratio⟩) ∨
    (¬ 1 < s.n_ratio ∧ c = none) := by
  unfold complexityStats at h
  by_cases h1 : 1 < s.n_ratio
  · rw [if_pos h1] at h
    by_cases h2 : s.user_cycle_ratio ≤ 0 ∨ s.total_cycle_ratio ≤ 0 ∨ s.time_ratio ≤ 0
    · rw [if_pos h2] at h
      cases h
    · rw [if_neg h2] at h
      injection h with h
      exact .inl ⟨h1, h.symm⟩
  · rw [if_neg h1] at h
    injection h with h
    exact .inr ⟨h1, h.symm⟩

/-- Inversion of a successful run of the Reporter on a non-empty list: the
scaling, complexity and efficiency computations all succeed and the printed
report is assembled from their results. -/
theorem print_statistics_cons_ok {x : BenchmarkRecord} {xs : List BenchmarkRecord}
    {v : Option Report} (h : print_statistics (x :: xs) = .ok v) :
    ∃ s c eff, scalingStats (minimumBy x xs) (maximumBy x xs) = .ok s ∧
      complexityStats s = .ok c ∧ efficiencyStats (x :: xs) = .ok eff ∧
      v = some
        { total_runs := (x :: xs).length
          participant_min := pyMinNat x.participant_count (xs.map (·.participant_count))
          participant_max := pyMaxNat x.participant_count (xs.map (·.participant_count))
          table := sortByParticipants (x :: xs)
          scaling := s
          complexity := c
          efficiency := eff } := by
  unfold print_statistics at h
  cases h1 : scalingStats (minimumBy x xs) (maximumBy x xs) with
  | error u => simp [h1] at h
  | ok s =>
  simp only [h1] at h
  cases h2 : complexityStats s with
  | error u => simp [h2] at h
  | ok c =>
  simp only [h2] at h
  cases h3 : efficiencyStats (x :: xs) with
  | error u => simp [h3] at h
  | ok eff =>
  simp only [h3] at h
  injection h with h
  exact ⟨s, c, eff, rfl, h2, rfl, h.symm⟩

/-- The average-overhead sum raises as soon as some record has zero user
cycles. -/
theorem sumExcept_overhead_error {data : List BenchmarkRecord}
    (h : ∃ d ∈ data, d.user_cycles = 0) :
    sumExcept overheadTerm data = .error () := by
  induction data with
  | nil => obtain ⟨d, hd, _⟩ := h; cases hd
  | cons a as ih =>
    obtain ⟨d, hd, h0⟩ := h
    rw [List.mem_cons] at hd
    cases hd with
    | inl hda =>
      subst hda
      simp [sumExcept, overheadTerm, pyDiv, h0]
    | inr hdas =>
      have hrest := ih ⟨d, hdas, h0⟩
      cases e : overheadTerm a with
      | error u => simp [sumExcept, e]
      | ok q => simp [sumExcept, e, hrest]

/-- The efficiency metrics raise when some record has zero user cycles. -/
theorem efficiencyStats_error_of_zero_user {data : List BenchmarkRecord}
    (h : ∃ d ∈ data, d.user_cycles = 0) :
    efficiencyStats data = .error () := by
  have hov := sumExcept_overhead_error h
  unfold efficiencyStats
  cases e1 : sumExcept userPerParticipantTerm data with
  | error u => cases u; simp [e1]
  | ok su =>
  simp only [e1]
  cases e2 : pyDiv su (data.length : Rat) with
  | error u => cases u; simp [e2]
  | ok avg_user =>
  simp only [e2]
  cases e3 : sumExcept totalPerParticipantTerm data with
  | error u => cases u; simp [e3]
  | ok st =>
  simp only [e3]
  cases e4 : pyDiv st (data.length : Rat) with
  | error u => cases u; simp [e4]
  | ok avg_total =>
  simp only [e4]
  cases e5 : sumExcept timePerParticipantTerm data with
  | error u => cases u; simp [e5]
  | ok stm =>
  simp only [e5]
  cases e6 : pyDiv stm (data.length : Rat) with
  | error u => cases u; simp [e6]
  | ok avg_time =>
  simp only [e6]
  rw [hov]

/-- A record with a positive participant count yields its CSV data row:
raw fields copied, per-participant columns divided, overhead guarded. -/
theorem csvRow_ok_of_pos {d : BenchmarkRecord} (h : d.participant_count ≠ 0) :
    csvRow d = .ok
      { n := d.participant_count
        user_cycles := d.user_cycles
        total_cycles := d.total_cycles
        session_segments := d.session_segments
        proving_time_ms := d.proving_time_ms
        total_time_ms := d.total_time_ms
        receipt_size_bytes := d.receipt_size_bytes
        journal_size_bytes := d.journal_size_bytes
        user_cycles_per_participant := (d.user_cycles : Rat) / (d.participant_count : Rat)
        total_cycles_per_participant := (d.total_cycles : Rat) / (d.participant_count : Rat)
        overhead := csv_overhead d
        time_per_participant := (d.total_time_ms : Rat) / (d.participant_count : Rat)
        timestamp := d.timestamp } := by
  have hne : (d.participant_count : Rat) ≠ 0 := Nat.cast_ne_zero.mpr h
  simp [csvRow, pyDiv, hne]

/-- The `N` column of a successfully written CSV row is the record's
participant count. -/
theorem csvRow_n_of_ok {d : BenchmarkRecord} {r : CsvRow} (h : csvRow d = .ok r) :
    r.n = d.participant_count := by
  unfold csvRow at h
  cases h1 : pyDiv (d.user_cycles : Rat) (d.participant_count : Rat) with
  | error u => simp [h1] at h
  | ok q1 =>
  simp only [h1] at h
  cases h2 : pyDiv (d.total_cycles : Rat) (d.participant_count : Rat) with
  | error u => simp [h2] at h
  | ok q2 =>
  simp only [h2] at h
  cases h3 : pyDiv (d.total_time_ms : Rat) (d.participant_count : Rat) with
  | error u => simp [h3] at h
  | ok q3 =>
  simp only [h3] at h
  injection h with h
  rw [← h]

/-- The `N` columns of successfully written CSV rows are the participant
counts of the records, in order. -/
theorem csvRows_map_n {l : List BenchmarkRecord} {rows : List CsvRow}
    (h : csvRows l = .ok rows) :
    rows.map (·.n) = l.map (·.participant_count) := by
  induction l generalizing rows with
  | nil =>
    unfold csvRows at h
    injection h with h
    rw [← h]
    rfl
  | cons d ds ih =>
    unfold csvRows at h
    cases e1 : csvRow d with
    | error u => simp [e1] at h
    | ok r =>
    simp only [e1] at h
    cases e2 : csvRows ds with
    | error u => simp [e2] at h
    | ok rs =>
    simp only [e2] at h
    injection h with h
    rw [← h]
    simp [csvRow_n_of_ok e1, ih e2]

/-- The per-participant user-cycles column of a successfully written CSV
row is the quotient of its raw user-cycles and `N` columns. -/
theorem csvRow_ucp_of_ok {d : BenchmarkRecord} {r : CsvRow} (h : csvRow d = .ok r) :
    r.user_cycles_per_participant = (r.user_cycles : Rat) / (r.n : Rat) := by
  unfold csvRow at h
  cases h1 : pyDiv (d.user_cycles : Rat) (d.participant_count : Rat) with
  | error u => simp [h1] at h
  | ok q1 =>
  simp only [h1] at h
  cases h2 : pyDiv (d.total_cycles : Rat) (d.participant_count : Rat) with
  | error u => simp [h2] at h
  | ok q2 =>
  simp only [h2] at h
  cases h3 : pyDiv (d.total_time_ms : Rat) (d.participant_count : Rat) with
  | error u => simp [h3] at h
  | ok q3 =>
  simp only [h3] at h
  obtain ⟨_, hq1⟩ := (pyDiv_ok_iff _ _ _).mp h1
  injection h with h
  rw [← h]
  exact hq1

/-- A successfully written CSV file has one data row per record. -/
theorem csvRows_length_of_ok {l : List BenchmarkRecord} {rows : List CsvRow}
    (h : csvRows l = .ok rows) : rows.length = l.length := by
  induction l generalizing rows with
  | nil =>
    unfold csvRows at h
    injection h with h
    rw [← h]
    rfl
  | cons d ds ih =>
    unfold csvRows at h
    cases e1 : csvRow d with
    | error u => simp [e1] at h
    | ok r =>
    simp only [e1] at h
    cases e2 : csvRows ds with
    | error u => simp [e2] at h
    | ok rs =>
    simp only [e2] at h
    injection h with h
    rw [← h]
    simp [ih e2]

/-- Every data row of a successfully written CSV file comes from one of the
records. -/
theorem csvRows_mem_of_ok {l : List BenchmarkRecord} {rows : List CsvRow}
    (h : csvRows l = .ok rows) {r : CsvRow} (hr : r ∈ rows) :
    ∃ d ∈ l, csvRow d = .ok r := by
  induction l generalizing rows with
  | nil =>
    unfold csvRows at h
    injection h with h
    rw [← h] at hr
    cases hr
  | cons d ds ih =>
    unfold csvRows at h
    cases e1 : csvRow d with
    | error u => simp [e1] at h
    | ok r0 =>
    simp only [e1] at h
    cases e2 : csvRows ds with
    | error u => simp [e2] at h
    | ok rs =>
    simp only [e2] at h
    injection h with h
    rw [← h] at hr
    rcases List.mem_cons.mp hr with hr | hr
    · exact ⟨d, List.mem_cons_self d ds, hr ▸ e1⟩
    · obtain ⟨e, he, hee⟩ := ih e2 hr
      exact ⟨e, List.mem_cons_of_mem d he, hee⟩

/-- When every record has a positive participant count the CSV export
succeeds. -/
theorem csvRows_ok_of_pos {l : List BenchmarkRecord}
    (h : ∀ d ∈ l, d.participant_count ≠ 0) :
    ∃ rows, csvRows l = .ok rows := by
  induction l with
  | nil => exact ⟨[], rfl⟩
  | cons d ds ih =>
    obtain ⟨rows, hrows⟩ := ih (fun e he => h e (List.mem_cons_of_mem d he))
    have hd : d.participant_count ≠ 0 := h d (List.mem_cons_self d ds)
    exact ⟨_, by unfold csvRows; rw [csvRow_ok_of_pos hd, hrows]⟩

/-- Dropping the header from a written CSV file leaves exactly the data
rows. -/
theorem csvDataRows_header_map (cols : List String) (rows : List CsvRow) :
    csvDataRows (CsvLine.header cols :: rows.map CsvLine.row) = rows := by
  unfold csvDataRows
  simp only [List.filterMap_cons]
  induction rows with
  | nil => rfl
  | cons r rs ih => simpa [List.filterMap_cons] using ih

/-- Inversion of a successful CSV export: the file is the header followed
by the data rows of the records sorted by participant count. -/
theorem generate_csv_report_ok_inv {data : List BenchmarkRecord}
    {lines : List CsvLine} (h : generate_csv_report data = .ok lines) :
    ∃ rows, csvRows (sortByParticipants data) = .ok rows ∧
      lines = CsvLine.header csvHeader :: rows.map CsvLine.row := by
  unfold generate_csv_report at h
  cases e : csvRows (sortByParticipants data) with
  | error u => simp [e] at h
  | ok rows =>
  simp only [e] at h
  injection h with h
  exact ⟨rows, rfl, h.symm⟩

/-- Concrete evaluation: the Reporter on the single record `rGood`. -/
theorem eval_good_stats : print_statistics [rGood] = .ok (some repGood) := by
  norm_num [print_statistics, scalingStats, complexityStats, efficiencyStats,
    sumExcept, userPerParticipantTerm, totalPerParticipantTerm,
    timePerParticipantTerm, overheadTerm, pyDiv, minimumBy, maximumBy,
    pyMinNat, pyMaxNat, sortByParticipants, List.insertionSort,
    List.orderedInsert, recLE, rGood, repGood]

/-- Concrete evaluation: the CSV export of the single record `rGood`. -/
theorem eval_good_csv : generate_csv_report [rGood] =
    .ok [CsvLine.header csvHeader, CsvLine.row rowGood] := by
  norm_num [generate_csv_report, csvRows, csvRow, csv_overhead, pyDiv,
    sortByParticipants, List.insertionSort, List.orderedInsert, recLE,
    rGood, rowGood]

/-- Concrete evaluation: the Reporter raises on `crashRec`, whose
`user_cycles` is zero, at the user-cycle scaling ratio. -/
theorem eval_crash_stats : print_statistics [crashRec] = .error () := by
  norm_num [print_statistics, scalingStats, pyDiv, minimumBy, maximumBy, crashRec]

/-- Concrete evaluation: the whole run on `crashWorld` dies with an
uncaught exception. -/
theorem eval_crash_main : run_main crashWorld = .crashed := by
  unfold run_main
  norm_num [crashWorld, load_benchmark_data, eval_crash_stats]

/-- Concrete evaluation: the Reporter on scenario 1. -/
theorem eval_ex_stats : print_statistics exData = .ok (some exReport7) := by
  norm_num [print_statistics, scalingStats, complexityStats, efficiencyStats,
    sumExcept, userPerParticipantTerm, totalPerParticipantTerm,
    timePerParticipantTerm, overheadTerm, pyDiv, minimumBy, maximumBy,
    pyMinNat, pyMaxNat, sortByParticipants, List.insertionSort,
    List.orderedInsert, recLE, exData, ex1, ex10, exReport7]

/-- Concrete evaluation: the CSV export of scenario 1. -/
theorem eval_ex_csv : generate_csv_report exData =
    .ok [CsvLine.header csvHeader, CsvLine.row exRow1, CsvLine.row exRow10] := by
  norm_num [generate_csv_report, csvRows, csvRow, csv_overhead, pyDiv,
    sortByParticipants, List.insertionSort, List.orderedInsert, recLE,
    exData, ex1, ex10, exRow1, exRow10]

/-- C1: for every results directory, the loader returns the parsed summary
file when it exists; only when it is absent does it collect the records of
the files matching `benchmark_N*.json`, in file-name-sorted order; and when
neither source exists it returns the empty list. -/
theorem c1_loader_strategy (dir : ResultsDir) :
    (∀ rs, dir.summary = some rs → load_benchmark_data dir = rs) ∧
    (dir.summary = none →
      load_benchmark_data dir =
        (sortFilesByName (dir.files.filter (fun p => matches_run_pattern p.1))).map
          Prod.snd ∧
      (sortFilesByName (dir.files.filter (fun p => matches_run_pattern p.1))).Pairwise
        fileLE) ∧
    (dir.summary = none → (∀ p ∈ dir.files, matches_run_pattern p.1 = false) →
      load_benchmark_data dir = []) := by
  refine ⟨?_, ?_, ?_⟩
  · intro rs h
    simp [load_benchmark_data, h]
  · intro h
    exact ⟨by simp [load_benchmark_data, h], sortFilesByName_sorted _⟩
  · intro h hall
    have hfil : dir.files.filter (fun p => matches_run_pattern p.1) = [] := by
      rw [List.filter_eq_nil_iff]
      intro p hp
      simp [hall p hp]
    simp [load_benchmark_data, h, hfil, sortFilesByName, List.insertionSort]

/-- C1 witness: a summary directory, a fallback directory with one matching
file, and a directory with no matching file. -/
theorem c1_loader_strategy_witness :
    load_benchmark_data
      { summary := some [rGood], files := [("benchmark_N1.json", crashRec)] } = [rGood] ∧
    load_benchmark_data { summary := none, files := [("benchmark_N1.json", rGood)] } =
      (sortFilesByName
        (([("benchmark_N1.json", rGood)]).filter (fun p => matches_run_pattern p.1))).map
        Prod.snd ∧
    load_benchmark_data { summary := none, files := [("data.json", rGood)] } = [] :=
  ⟨(c1_loader_strategy _).1 [rGood] rfl,
   ((c1_loader_strategy _).2.1 rfl).1,
   (c1_loader_strategy _).2.2 rfl (by decide)⟩

/-- C3: for any record with zero `user_cycles`, the CSV exporter's overhead
column is exactly 0 (the division is guarded), while the Reporter fails on
any data set containing such a record (the average-overhead division is
unguarded). -/
theorem c3_overhead_guard_asymmetry (data : List BenchmarkRecord)
    (d : BenchmarkRecord) (hd : d ∈ data) (h0 : d.user_cycles = 0) :
    csv_overhead d = 0 ∧ print_statistics data = .error () := by
  constructor
  · simp [csv_overhead, h0]
  · cases data with
    | nil => cases hd
    | cons x xs =>
      cases hp : print_statistics (x :: xs) with
      | error u => cases u; rfl
      | ok v =>
        exfalso
        obtain ⟨s, c, eff, _, _, heff, _⟩ := print_statistics_cons_ok hp
        have herr := efficiencyStats_error_of_zero_user ⟨d, hd, h0⟩
        rw [heff] at herr
        simp at herr

/-- C3 witness: the record `crashRec` with `user_cycles = 0`. -/
theorem c3_overhead_guard_asymmetry_witness :
    csv_overhead crashRec = 0 ∧ print_statistics [crashRec] = .error () :=
  c3_overhead_guard_asymmetry [crashRec] crashRec (List.mem_singleton.mpr rfl) rfl

/-- C9: the Reporter's scaling ratios divide by the `user_cycles`,
`total_cycles`, `session_segments` and `total_time_ms` of the record with
minimum participant count without any guard: whenever one of these four
fields is zero there, the Reporter raises a division (or logarithm) error
and no report is produced. -/
theorem c9_scaling_unguarded (x : BenchmarkRecord) (xs : List BenchmarkRecord)
    (h : (minimumBy x xs).user_cycles = 0 ∨ (minimumBy x xs).total_cycles = 0 ∨
         (minimumBy x xs).session_segments = 0 ∨ (minimumBy x xs).total_time_ms = 0) :
    print_statistics (x :: xs) = .error () := by
  cases hp : print_statistics (x :: xs) with
  | error u => cases u; rfl
  | ok v =>
    exfalso
    obtain ⟨s, c, eff, hs, _, _, _⟩ := print_statistics_cons_ok hp
    obtain ⟨_, h1, h2, h3, h4, _⟩ := scalingStats_ok_inv hs
    rcases h with h | h | h | h
    exacts [h1 h, h2 h, h3 h, h4 h]

/-- C9 witness: a record whose `session_segments` is zero while every other
denominator field is positive, beyond the documented `user_cycles` case. -/
theorem c9_scaling_unguarded_witness : print_statistics [zeroSegRec] = .error () :=
  c9_scaling_unguarded zeroSegRec [] (Or.inr (Or.inr (Or.inl rfl)))

/-- C10: when `benchmark_summary.json` exists the loader returns exactly
its parsed contents, whatever per-run files are present; in particular an
empty summary array makes the driver exit with code 1 reporting that no
benchmark data was found, even next to matching per-run files. -/
theorem c10_summary_precedence (dir : ResultsDir) (rs : List BenchmarkRecord)
    (h : dir.summary = some rs) :
    load_benchmark_data dir = rs ∧
    (∀ w : World, w.dir = dir → w.dirExists = true → rs = [] →
      run_main w = .noData ∧ exit_code (run_main w) = 1 ∧
      error_output (run_main w) = ["Error: No benchmark data found"]) := by
  have hload : load_benchmark_data dir = rs := by simp [load_benchmark_data, h]
  refine ⟨hload, ?_⟩
  intro w hw hex hrs
  have hempty : load_benchmark_data w.dir = [] := by rw [hw, hload, hrs]
  refine ⟨?_, ?_, ?_⟩ <;> simp [run_main, hex, hempty, exit_code, error_output]

/-- C10 witness: the directory `emptySummaryDir`, whose summary file parses
to the empty array next to a matching per-run file. -/
theorem c10_summary_precedence_witness :
    load_benchmark_data emptySummaryDir = [] ∧
    run_main emptySummaryWorld = .noData ∧
    exit_code (run_main emptySummaryWorld) = 1 :=
  ⟨(c10_summary_precedence emptySummaryDir [] rfl).1,
   ((c10_summary_precedence emptySummaryDir [] rfl).2 emptySummaryWorld rfl rfl rfl).1,
   ((c10_summary_precedence emptySummaryDir [] rfl).2 emptySummaryWorld rfl rfl rfl).2.1⟩

/-- C4: on records with positive participant counts (the data-model
invariant), the written CSV is exactly one header row followed by one data
row per input record, and in each data row the per-participant user-cycles
column is the quotient of the row's raw `User Cycles` and `N` columns. -/
theorem c4_csv_roundtrip (data : List BenchmarkRecord)
    (hpos : ∀ d ∈ data, 0 < d.participant_count) :
    ∃ rows : List CsvRow, generate_csv_report data =
        .ok (CsvLine.header csvHeader :: rows.map CsvLine.row) ∧
      rows.length = data.length ∧
      ∀ r ∈ rows, r.user_cycles_per_participant = (r.user_cycles : Rat) / (r.n : Rat) := by
  have hpos' : ∀ d ∈ sortByParticipants data, d.participant_count ≠ 0 := by
    intro d hd
    have hmem : d ∈ data := (sortByParticipants_perm data).mem_iff.mp hd
    exact Nat.pos_iff_ne_zero.mp (hpos d hmem)
  obtain ⟨rows, hrows⟩ := csvRows_ok_of_pos hpos'
  refine ⟨rows, ?_, ?_, ?_⟩
  · unfold generate_csv_report
    rw [hrows]
  · rw [csvRows_length_of_ok hrows, (sortByParticipants_perm data).length_eq]
  · intro r hr
    obtain ⟨d, _, hdr⟩ := csvRows_mem_of_ok hrows hr
    exact csvRow_ucp_of_ok hdr

/-- C4 witness: the single record `rGood`. -/
theorem c4_csv_roundtrip_witness :
    ∃ rows : List CsvRow, generate_csv_report [rGood] =
        .ok (CsvLine.header csvHeader :: rows.map CsvLine.row) ∧
      rows.length = 1 ∧
      ∀ r ∈ rows, r.user_cycles_per_participant = (r.user_cycles : Rat) / (r.n : Rat) :=
  c4_csv_roundtrip [rGood] (by decide)

/-- C6: the Reporter's detailed table rows and the CSV data rows are both
emitted in non-decreasing order of participant count. -/
theorem c6_sorted_rows (data : List BenchmarkRecord) :
    (∀ rep, print_statistics data = .ok (some rep) → rep.table.Pairwise recLE) ∧
    (∀ lines, generate_csv_report data = .ok lines →
      (csvDataRows lines).Pairwise (fun a b => a.n ≤ b.n)) := by
  constructor
  · intro rep h
    cases data with
    | nil => simp [print_statistics] at h
    | cons x xs =>
      obtain ⟨s, c, eff, _, _, _, hv⟩ := print_statistics_cons_ok h
      injection hv with hv
      rw [hv]
      exact sortByParticipants_sorted _
  · intro lines h
    obtain ⟨rows, hrows, hlines⟩ := generate_csv_report_ok_inv h
    rw [hlines, csvDataRows_header_map]
    have hmapn := csvRows_map_n hrows
    have hsorted : ((sortByParticipants data).map (·.participant_count)).Pairwise
        (· ≤ ·) :=
      List.pairwise_map.mpr (sortByParticipants_sorted data)
    rw [← hmapn] at hsorted
    exact List.pairwise_map.mp hsorted

/-- C6 witness: the single record `rGood`. -/
theorem c6_sorted_rows_witness :
    repGood.table.Pairwise recLE ∧
    (csvDataRows [CsvLine.header csvHeader, CsvLine.row rowGood]).Pairwise
      (fun a b => a.n ≤ b.n) :=
  ⟨(c6_sorted_rows [rGood]).1 repGood eval_good_stats,
   (c6_sorted_rows [rGood]).2 [CsvLine.header csvHeader, CsvLine.row rowGood]
     eval_good_csv⟩

/-- C2 (amended): the driver exits 1 with the usage message when the
directory does not exist, exits 1 printing the no-data error when the
directory exists but the loader yields zero records, and exits 0 whenever
the directory exists, data is non-empty and the report and CSV
computations raise no error.  (As originally stated — exit 0 in every
other case — the claim fails: a record with zero `user_cycles` makes the
Reporter raise, and the process dies with exit code 1; see the
counterexample.) -/
theorem c2_exit_codes (w : World) :
    (w.dirExists = false →
      run_main w = .dirNotFound ∧ exit_code (run_main w) = 1 ∧
      error_output (run_main w) =
        ["Error: Results directory not found",
         "Usage: analyze_benchmarks.py [results_dir]"]) ∧
    (w.dirExists = true → load_benchmark_data w.dir = [] →
      run_main w = .noData ∧ exit_code (run_main w) = 1 ∧
      error_output (run_main w) = ["Error: No benchmark data found"]) ∧
    (w.dirExists = true → load_benchmark_data w.dir ≠ [] →
      (print_statistics (load_benchmark_data w.dir)).isOk = true →
      (generate_csv_report (load_benchmark_data w.dir)).isOk = true →
      exit_code (run_main w) = 0) := by
  refine ⟨?_, ?_, ?_⟩
  · intro h
    refine ⟨?_, ?_, ?_⟩ <;> simp [run_main, h, exit_code, error_output]
  · intro h he
    refine ⟨?_, ?_, ?_⟩ <;> simp [run_main, h, he, exit_code, error_output]
  · intro h hne hstats hcsv
    have hie : (load_benchmark_data w.dir).isEmpty = false := by
      cases hld : load_benchmark_data w.dir with
      | nil => exact absurd hld hne
      | cons a as => rfl
    cases hp : print_statistics (load_benchmark_data w.dir) with
    | error u =>
      rw [hp] at hstats
      simp [Except.isOk, Except.toBool] at hstats
    | ok rep =>
    cases hc : generate_csv_report (load_benchmark_data w.dir) with
    | error u =>
      rw [hc] at hcsv
      simp [Except.isOk, Except.toBool] at hcsv
    | ok csv =>
    simp [run_main, h, hie, hp, hc, exit_code]

/-- C2 counterexample: a world whose directory exists and holds non-empty
data, on which the process nevertheless exits non-zero (the Reporter
raises `ZeroDivisionError` on the record with zero `user_cycles`). -/
theorem c2_exit_codes_cex :
    crashWorld.dirExists = true ∧
    load_benchmark_data crashWorld.dir ≠ [] ∧
    run_main crashWorld = .crashed ∧
    exit_code (run_main crashWorld) ≠ 0 := by
  refine ⟨rfl, ?_, eval_crash_main, ?_⟩
  · rw [show load_benchmark_data crashWorld.dir = [crashRec] from rfl]
    simp
  · rw [eval_crash_main]
    simp [exit_code]

/-- C2 witness: the three branches at concrete worlds — missing directory,
empty summary, and a well-behaved record. -/
theorem c2_exit_codes_witness :
    run_main { dirExists := false, dir := { summary := none, files := [] },
               matplotlib_available := false } = .dirNotFound ∧
    run_main { dirExists := true, dir := { summary := some [], files := [] },
               matplotlib_available := false } = .noData ∧
    exit_code (run_main goodWorld) = 0 :=
  ⟨((c2_exit_codes { dirExists := false, dir := { summary := none, files := [] },
                     matplotlib_available := false }).1 rfl).1,
   ((c2_exit_codes { dirExists := true, dir := { summary := some [], files := [] },
                     matplotlib_available := false }).2.1 rfl rfl).1,
   (c2_exit_codes goodWorld).2.2 rfl
     (by rw [show load_benchmark_data goodWorld.dir = [rGood] from rfl]; simp)
     (by rw [show load_benchmark_data goodWorld.dir = [rGood] from rfl,
             eval_good_stats]; rfl)
     (by rw [show load_benchmark_data goodWorld.dir = [rGood] from rfl,
             eval_good_csv]; rfl)⟩

/-- C5: on a successfully printed report, the complexity section is present
exactly when the ratio of the maximum to the minimum participant count
exceeds 1 (so it is omitted when they are equal, and the logarithm of 1 is
never used as a divisor), and when present it is computed from the scaling
ratios of user cycles, total cycles and time against the participant
ratio. -/
theorem c5_complexity_gate (x : BenchmarkRecord) (xs : List BenchmarkRecord)
    (rep : Report) (h : print_statistics (x :: xs) = .ok (some rep)) :
    (rep.complexity.isSome = true ↔
      1 < ((pyMaxNat x.participant_count (xs.map (·.participant_count)) : Rat) /
           (pyMinNat x.participant_count (xs.map (·.participant_count)) : Rat))) ∧
    (pyMaxNat x.participant_count (xs.map (·.participant_count)) =
       pyMinNat x.participant_count (xs.map (·.participant_count)) →
     rep.complexity = none) ∧
    (∀ cs, rep.complexity = some cs →
      cs = ⟨rep.scaling.user_cycle_ratio, rep.scaling.total_cycle_ratio,
            rep.scaling.time_ratio, rep.scaling.n_ratio⟩) := by
  obtain ⟨s, c, eff, hs, hc, heff, hv⟩ := print_statistics_cons_ok h
  injection hv with hv
  subst hv
  obtain ⟨hpc, _, _, _, _, hnr⟩ := scalingStats_ok_inv hs
  have hmin := minimumBy_key x xs
  have hmax := maximumBy_key x xs
  have hratio : s.n_ratio =
      ((pyMaxNat x.participant_count (xs.map (·.participant_count)) : Rat) /
       (pyMinNat x.participant_count (xs.map (·.participant_count)) : Rat)) := by
    rw [hnr, hmin, hmax]
  have hminne : pyMinNat x.participant_count (xs.map (·.participant_count)) ≠ 0 :=
    hmin ▸ hpc
  rcases complexityStats_ok_inv hc with ⟨hgt, hcs⟩ | ⟨hle, hcs⟩
  · refine ⟨?_, ?_, ?_⟩
    · show c.isSome = true ↔ _
      rw [hcs]
      exact iff_of_true rfl (hratio ▸ hgt)
    · intro heq
      exfalso
      rw [hratio, heq, div_self (Nat.cast_ne_zero.mpr hminne)] at hgt
      exact lt_irrefl 1 hgt
    · intro cs hcs2
      have h2 : c = some cs := hcs2
      rw [hcs] at h2
      injection h2 with h2
      exact h2.symm
  · refine ⟨?_, ?_, ?_⟩
    · show c.isSome = true ↔ _
      rw [hcs]
      exact iff_of_false (by simp) (hratio ▸ hle)
    · intro _
      show c = none
      exact hcs
    · intro cs hcs2
      exfalso
      have h2 : c = some cs := hcs2
      rw [hcs] at h2
      simp at h2

/-- C5 witness: the single record `rGood` (maximum equals minimum, so the
section is absent and the ratio is 1). -/
theorem c5_complexity_gate_witness :
    (repGood.complexity.isSome = true ↔
      1 < (((2 : Nat) : Rat) / ((2 : Nat) : Rat))) ∧
    ((2 : Nat) = (2 : Nat) → repGood.complexity = none) ∧
    (∀ cs, repGood.complexity = some cs →
      cs = ⟨repGood.scaling.user_cycle_ratio, repGood.scaling.total_cycle_ratio,
            repGood.scaling.time_ratio, repGood.scaling.n_ratio⟩) :=
  c5_complexity_gate rGood [] repGood eval_good_stats

/-- C7: on the two records of scenario 1 the report shows range 1 to 10,
a participant ratio of 10 and a user-cycle ratio of 19/2 = 9.50, and the
CSV holds exactly two data rows with overhead 12/5 = 2.4 percent for N=1
and 6884/95 = 72.46 percent (to two decimals) for N=10. -/
theorem c7_scenario_one :
    print_statistics exData = .ok (some exReport7) ∧
    exReport7.participant_min = 1 ∧ exReport7.participant_max = 10 ∧
    exReport7.scaling.n_ratio = 10 ∧ exReport7.scaling.user_cycle_ratio = 19 / 2 ∧
    generate_csv_report exData =
      .ok [CsvLine.header csvHeader, CsvLine.row exRow1, CsvLine.row exRow10] ∧
    exRow1.n = 1 ∧ exRow1.overhead = 12 / 5 ∧ exRow10.n = 10 ∧
    |exRow10.overhead - 7246 / 100| < 1 / 100 := by
  refine ⟨eval_ex_stats, rfl, rfl, rfl, rfl, eval_ex_csv, rfl, rfl, rfl, ?_⟩
  rw [show exRow10.overhead = 6884 / 95 from rfl, abs_sub_lt_iff]
  constructor <;> norm_num

/-- C8: when matplotlib is unavailable the Chart Renderer produces no file,
and a run that reaches it (directory exists, data non-empty, report and CSV
computed) still completes with exit code 0 and no plot file: the missing
capability is never fatal. -/
theorem c8_plot_optional (data : List BenchmarkRecord) (w : World) :
    generate_plot false data = none ∧
    (w.matplotlib_available = false → w.dirExists = true →
      load_benchmark_data w.dir ≠ [] →
      (print_statistics (load_benchmark_data w.dir)).isOk = true →
      (generate_csv_report (load_benchmark_data w.dir)).isOk = true →
      exit_code (run_main w) = 0 ∧
      ∃ rep csv, run_main w = .completed rep csv none) := by
  constructor
  · simp [generate_plot]
  · intro hm h hne hstats hcsv
    have hie : (load_benchmark_data w.dir).isEmpty = false := by
      cases hld : load_benchmark_data w.dir with
      | nil => exact absurd hld hne
      | cons a as => rfl
    cases hp : print_statistics (load_benchmark_data w.dir) with
    | error u =>
      rw [hp] at hstats
      simp [Except.isOk, Except.toBool] at hstats
    | ok rep =>
    cases hc : generate_csv_report (load_benchmark_data w.dir) with
    | error u =>
      rw [hc] at hcsv
      simp [Except.isOk, Except.toBool] at hcsv
    | ok csv =>
    have hrm : run_main w = .completed rep csv none := by
      simp [run_main, h, hie, hp, hc, hm, generate_plot]
    exact ⟨by rw [hrm]; rfl, rep, csv, hrm⟩

/-- C8 witness: `goodWorld`, where matplotlib is unavailable. -/
theorem c8_plot_optional_witness :
    generate_plot false [rGood] = none ∧ exit_code (run_main goodWorld) = 0 ∧
    ∃ rep csv, run_main goodWorld = .completed rep csv none := by
  have h := c8_plot_optional [rGood] goodWorld
  have h2 := h.2 rfl rfl
    (by rw [show load_benchmark_data goodWorld.dir = [rGood] from rfl]; simp)
    (by rw [show load_benchmark_data goodWorld.dir = [rGood] from rfl,
            eval_good_stats]; rfl)
    (by rw [show load_benchmark_data goodWorld.dir = [rGood] from rfl,
            eval_good_csv]; rfl)
  exact ⟨h.1, h2.1, h2.2⟩
